import Mathlib

set_option maxHeartbeats 2000000
set_option maxRecDepth 4000

/-!
Verification development for the golden-cross pullback scanner
(`strategy_golden_pullback.py`, function `scan_strategy`).

The embedding models one instrument's daily OHLCV series as a `List Bar`.
Prices and volumes are exact rationals (ℚ): the data source (pykrx /
cached CSV) delivers complete numeric rows, so in this pipeline pandas
NaN arises only from the rolling-window warm-up, which the embedding
models with `Option`.  Python's float `round` (half-to-even) and `int`
(truncation) are idealised over ℚ; every concrete series used below is
chosen so that exact rational and float-64 evaluation coincide.
-/

/-- Lookback window for the stage-1 crossover search (source line 44). -/
def GC_LOOKBACK : Nat := 30

/-- Minimum wait after the crossover before a pullback counts (source line 45). -/
def PULLBACK_MIN : Nat := 3

/-- Maximum wait after the crossover for a pullback (source line 46). -/
def PULLBACK_MAX : Nat := 10

/-- Tolerance band around MA20 for the pullback touch, 2% (source line 47). -/
def TOUCH_MARGIN : ℚ := 2 / 100

/-- Forward window after the pullback for the buy signal (source line 49). -/
def SIGNAL_LOOKBACK : Nat := 3

/-- One daily OHLCV bar.  `date` is an abstract calendar-day key (the code
only copies dates into the output and compares the bar position with
`n-1`; it never interprets them). -/
structure Bar where
  date : Nat
  open_ : ℚ
  high : ℚ
  low : ℚ
  close : ℚ
  volume : ℚ
deriving DecidableEq

/-- pandas `Series.rolling(w).mean()` evaluated at index `i`: the arithmetic
mean of `xs[i-w+1 .. i]`, `none` (NaN) while fewer than `w` observations
exist or `i` is out of range. -/
def rollingMA (w : Nat) (xs : List ℚ) (i : Nat) : Option ℚ :=
  if w ≤ i + 1 ∧ i < xs.length then
    some ((((List.range w).map fun k => xs.getD (i + 1 - w + k) 0).sum) / (w : ℚ))
  else none

/-- The close-price series of the frame (source line 79). -/
def closes (bars : List Bar) : List ℚ := bars.map Bar.close

/-- The volume series of the frame (source line 83). -/
def volumes (bars : List Bar) : List ℚ := bars.map Bar.volume

/-- `price_ma20 = close.rolling(20).mean()` (source line 86). -/
def price_ma20 (bars : List Bar) (i : Nat) : Option ℚ := rollingMA 20 (closes bars) i

/-- `price_ma200 = close.rolling(200).mean()` (source line 87). -/
def price_ma200 (bars : List Bar) (i : Nat) : Option ℚ := rollingMA 200 (closes bars) i

/-- `vol_ma20 = volume.rolling(20).mean()` (source line 88). -/
def vol_ma20 (bars : List Bar) (i : Nat) : Option ℚ := rollingMA 20 (volumes bars) i

/-- `vol_ma200 = volume.rolling(200).mean()` (source line 89). -/
def vol_ma200 (bars : List Bar) (i : Nat) : Option ℚ := rollingMA 200 (volumes bars) i

/-- `v_ma5 = volume.rolling(5).mean()` (source line 188). -/
def vol_ma5 (bars : List Bar) (i : Nat) : Option ℚ := rollingMA 5 (volumes bars) i

/-- Python `round(x)` to an integer: round half to even, idealised on ℚ. -/
def pyRound (q : ℚ) : ℤ :=
  let f : ℤ := q.floor
  let r : ℚ := q - (f : ℚ)
  if r < 1 / 2 then f
  else if 1 / 2 < r then f + 1
  else if f % 2 = 0 then f else f + 1

/-- Python `round(x, 2)`: round half to even at two decimal places. -/
def pyRound2 (q : ℚ) : ℚ := ((pyRound (q * 100) : ℚ)) / 100

/-- Python `int(x)`: truncation toward zero. -/
def pyInt (q : ℚ) : ℤ := Int.tdiv q.num (q.den : ℤ)

/-- Body of the stage-1 loop (source lines 99-114): all six rolling
statistics at `i-1` / `i` must be defined (NaN rows are skipped), the
20-day price MA must cross from `≤` to `>` the 200-day price MA, and the
20-day volume MA must exceed the 200-day volume MA. -/
def gcCond (bars : List Bar) (i : Nat) : Bool :=
  match price_ma20 bars (i - 1), price_ma20 bars i, price_ma200 bars (i - 1),
      price_ma200 bars i, vol_ma20 bars i, vol_ma200 bars i with
  | some prev_p20, some curr_p20, some prev_p200, some curr_p200,
      some curr_v20, some curr_v200 =>
    (decide (prev_p20 ≤ prev_p200) && decide (curr_p200 < curr_p20))
      && decide (curr_v200 < curr_v20)
  | _, _, _, _, _, _ => false

/-- `search_start = max(201, n - GC_LOOKBACK - 1)` (source line 96). -/
def search_start (n : Nat) : Nat := max 201 (n - GC_LOOKBACK - 1)

/-- Stage 1 (source lines 94-117): scan `range(search_start, n)` and keep
overwriting the candidate index whenever the condition holds, so the most
recent qualifying crossover wins. -/
def findGC (bars : List Bar) : Option Nat :=
  (List.range' (search_start bars.length)
      (bars.length - search_start bars.length)).foldl
    (fun acc i => if gcCond bars i then some i else acc) none

/-- Symmetric tolerance band test `ma*(1-m) ≤ x ≤ ma*(1+m)` (source lines 139-140). -/
def touchBand (ma x : ℚ) : Bool :=
  decide (ma * (1 - TOUCH_MARGIN) ≤ x) && decide (x ≤ ma * (1 + TOUCH_MARGIN))

/-- Body of the stage-2 loop (source lines 131-142): MA20 at `i` must be
defined and the bar's low or close must lie inside the band. -/
def pullbackCond (bars : List Bar) (i : Nat) : Bool :=
  match bars[i]?, price_ma20 bars i with
  | some b, some curr_ma20 => touchBand curr_ma20 b.low || touchBand curr_ma20 b.close
  | _, _ => false

/-- Stage 2 (source lines 127-146): first qualifying index in
`range(gc_idx + PULLBACK_MIN, min(gc_idx + PULLBACK_MAX + 1, n))`. -/
def findPullback (bars : List Bar) (gc_idx : Nat) : Option Nat :=
  (List.range' (gc_idx + PULLBACK_MIN)
      (min (gc_idx + PULLBACK_MAX + 1) bars.length - (gc_idx + PULLBACK_MIN))).find?
    (pullbackCond bars)

/-- Body of the stage-3 loop (source lines 160-174): the bar must be bullish
(`close > open`) and break the previous bar's high with its close or high.
The raw OHLC fields of in-range bars are total in this data source, so the
`pd.isna` guard on them reduces to index validity. -/
def signalCond (bars : List Bar) (i : Nat) : Bool :=
  match bars[i]?, bars[i - 1]? with
  | some b, some prevb =>
    decide (b.open_ < b.close)
      && (decide (prevb.high < b.close) || decide (prevb.high < b.high))
  | _, _ => false

/-- Stage 3 (source lines 156-182): first qualifying index in
`range(pullback_idx + 1, min(pullback_idx + SIGNAL_LOOKBACK + 1, n))`. -/
def findSignal (bars : List Bar) (pullback_idx : Nat) : Option Nat :=
  (List.range' (pullback_idx + 1)
      (min (pullback_idx + SIGNAL_LOOKBACK + 1) bars.length - (pullback_idx + 1))).find?
    (signalCond bars)

/-- Date key of bar `i` (in-range whenever used). -/
def dateAt (bars : List Bar) (i : Nat) : Nat := ((bars[i]?).map Bar.date).getD 0

/-- Low price of bar `i` (in-range whenever used). -/
def lowAt (bars : List Bar) (i : Nat) : ℚ := ((bars[i]?).map Bar.low).getD 0

/-- Close price of bar `i` (in-range whenever used). -/
def closeAt (bars : List Bar) (i : Nat) : ℚ := ((bars[i]?).map Bar.close).getD 0

/-- `signal_type` (source lines 177-181): the "today" tag when the signal
bar is the series' last bar, else "historic" carrying the bar's date. -/
inductive SignalType where
  | today : SignalType
  | historic : Nat → SignalType
deriving DecidableEq

/-- The `price_gc` sub-record (source lines 204-212). -/
structure PriceGCInfo where
  ma20 : ℤ
  ma200 : ℤ
  gapPct : Option ℚ
  gcDate : Nat
deriving DecidableEq

/-- The `pullback` sub-record (source lines 214-222). -/
structure PullbackInfo where
  gcDate : Nat
  pullbackDate : Nat
  pullbackLow : ℤ
  signalDate : Nat
  signalType : SignalType
deriving DecidableEq

/-- The `vol_gc` sub-record (source lines 224-230). -/
structure VolInfo where
  vMA5 : ℤ
  vMA20 : ℤ
  volumeRatio : ℚ
deriving DecidableEq

/-- The dict returned by `scan_strategy` (source lines 235-240). -/
structure ScanResult where
  lastClose : ℤ
  price_gc : Option PriceGCInfo
  pullback : Option PullbackInfo
  vol_gc : Option VolInfo
deriving DecidableEq

/-- `vol_gc_ratio` (source lines 188-194): defined from the final bar's
5-day and 20-day volume MAs; `0` when undefined or the condition fails. -/
def vol_gc_ratio (bars : List Bar) : ℚ :=
  match vol_ma5 bars (bars.length - 1), vol_ma20 bars (bars.length - 1) with
  | some curr_v5, some curr_v20 =>
    if 0 < curr_v20 ∧ curr_v20 < curr_v5 then pyRound2 (curr_v5 / curr_v20) else 0
  | _, _ => 0

/-- `vol_info` (source lines 224-230): populated exactly when the ratio is
positive. -/
def vol_info (bars : List Bar) : Option VolInfo :=
  if 0 < vol_gc_ratio bars then
    some
      { vMA5 := pyRound ((vol_ma5 bars (bars.length - 1)).getD 0)
        vMA20 := pyRound ((vol_ma20 bars (bars.length - 1)).getD 0)
        volumeRatio := vol_gc_ratio bars }
  else none

/-- `gap_pct` (source line 201): `round((ma20/ma200 - 1)*100, 2)` when the
final 200-day MA is defined and positive, else `None`.  (With `n ≥ 201`
both final MAs are always defined in this embedding.) -/
def gap_pct (bars : List Bar) : Option ℚ :=
  match price_ma20 bars (bars.length - 1), price_ma200 bars (bars.length - 1) with
  | some last_ma20, some last_ma200 =>
    if 0 < last_ma200 then some (pyRound2 ((last_ma20 / last_ma200 - 1) * 100)) else none
  | _, _ => none

/-- `price_gc_info` (source lines 204-212): populated when the final bar's
20-day price MA exceeds its 200-day price MA (the loop leftovers
`curr_p20`/`curr_p200` hold the `n-1` values once stage 1 found a match). -/
def price_gc_info (bars : List Bar) (gc_idx : Nat) : Option PriceGCInfo :=
  match price_ma20 bars (bars.length - 1), price_ma200 bars (bars.length - 1) with
  | some last_ma20, some last_ma200 =>
    if last_ma200 < last_ma20 then
      some
        { ma20 := pyRound last_ma20
          ma200 := pyRound last_ma200
          gapPct := gap_pct bars
          gcDate := dateAt bars gc_idx }
    else none
  | _, _ => none

/-- `pullback_info` (source lines 214-222).  The guard `if signal_idx is not
None` is vacuously true at this point (stage 3 already returned early on
`None`), so the record is always built. -/
def pullback_info (bars : List Bar) (gc_idx pullback_idx signal_idx : Nat) : PullbackInfo :=
  { gcDate := dateAt bars gc_idx
    pullbackDate := dateAt bars pullback_idx
    pullbackLow := pyRound (lowAt bars pullback_idx)
    signalDate := dateAt bars signal_idx
    signalType :=
      if signal_idx = bars.length - 1 then SignalType.today
      else SignalType.historic (dateAt bars signal_idx) }

/-- `scan_strategy` (source lines 71-240): `None` for a missing frame or
fewer than 201 bars; stages 1-3 each return `None` early on failure; the
volume-ratio stage and the result assembly run only after stage 3
succeeded.  The `(None, None, None)` arm mirrors source lines 232-233. -/
def scan_strategy (df : Option (List Bar)) : Option ScanResult :=
  match df with
  | none => none
  | some bars =>
    if bars.length < 201 then none
    else
      match findGC bars with
      | none => none
      | some gc_idx =>
        match findPullback bars gc_idx with
        | none => none
        | some pullback_idx =>
          match findSignal bars pullback_idx with
          | none => none
          | some signal_idx =>
            match price_gc_info bars gc_idx,
                some (pullback_info bars gc_idx pullback_idx signal_idx),
                vol_info bars with
            | none, none, none => none
            | p, pb, v => some
                { lastClose := pyInt (closeAt bars (bars.length - 1))
                  price_gc := p
                  pullback := pb
                  vol_gc := v }

/-- Adjacent-pair strict ordering of a date list. -/
def sortedDates : List Nat → Bool
  | [] => true
  | [_] => true
  | a :: b :: rest => decide (a < b) && sortedDates (b :: rest)

/-- Spec-side predicate (for the error-handling claim): a series is
malformed when its dates are not strictly increasing, i.e. unsorted or
containing duplicates. -/
def malformedSeries (bars : List Bar) : Bool := !sortedDates (bars.map Bar.date)

/-- 206-bar series with the full pattern: crossover at index 201, pullback
touch at 204, breakout signal at 205 (= last bar).  Its dates carry a
deliberate duplicate (`date 100 = date 99`). -/
def exFullBar (i : Nat) : Bar :=
  { date := if i = 100 then 99 else i
    open_ := if i = 204 then 101 else if i = 205 then 100 else 100
    high := if i = 204 then 102 else if i = 205 then 104 else 100
    low := if i = 204 then 99 else 100
    close :=
      if i = 201 then 120
      else if i = 202 then 101
      else if i = 203 then 101
      else if i = 204 then 100
      else if i = 205 then 103
      else 100
    volume := if i < 182 then 0 else 100 }

def exFull : List Bar := (List.range 206).map exFullBar

/-- The exact result of scanning `exFull`. -/
def exFullResult : ScanResult :=
  { lastClose := 103
    price_gc := some { ma20 := 101, ma200 := 100, gapPct := some (28 / 25), gcDate := 201 }
    pullback := some
      { gcDate := 201, pullbackDate := 204, pullbackLow := 99, signalDate := 205
        signalType := SignalType.today }
    vol_gc := none }

/-- 206-bar series with two qualifying crossovers inside the lookback
window, at indices 201 and 203 (the 20-day MA dips back below the 200-day
MA at 202 and recrosses at 203). -/
def exTwoBar (i : Nat) : Bar :=
  { date := i
    open_ := 100
    high := 100
    low := 100
    close :=
      if i = 201 then 120
      else if i = 202 then 60
      else if i = 203 then 130
      else 100
    volume := if i < 182 then 0 else 100 }

def exTwo : List Bar := (List.range 206).map exTwoBar

/-- 201-bar series whose only qualifying crossover sits exactly at index
200: the 200-day MA is first defined at 199, and at 200 the 20-day MA
jumps above it with the volume condition satisfied. -/
def exAt200Bar (i : Nat) : Bar :=
  { date := i
    open_ := 100
    high := 100
    low := 100
    close := if i = 200 then 3000 else 100
    volume := if i < 181 then 0 else 100 }

def exAt200 : List Bar := (List.range 201).map exAt200Bar

/-- 201-bar series with no crossover at all but a final-bar volume surge:
`volMA5[200] = 180 = 1.5 × volMA20[200]` and `volMA20[200] = 120 > 0`. -/
def exVolBar (i : Nat) : Bar :=
  { date := i
    open_ := 100
    high := 100
    low := 100
    close := 100
    volume := if i < 181 then 0 else if i < 196 then 100 else 180 }

def exVol : List Bar := (List.range 201).map exVolBar

/-- A plain constant bar, for short-series inputs. -/
def plainBar : Bar :=
  { date := 0, open_ := 100, high := 100, low := 100, close := 100, volume := 100 }

/-- Remap every bar's date field; prices and volumes are untouched. -/
def remapDates (f : Nat → Nat) (bars : List Bar) : List Bar :=
  bars.map fun b => { b with date := f b.date }

/-! ### General lemmas about the two loop shapes -/

/-- A fold that overwrites its accumulator at every match returns the last
match: it equals a first-match search over the reversed list. -/
theorem foldl_overwrite_eq (p : Nat → Bool) (l : List Nat) (acc : Option Nat) :
    l.foldl (fun a i => if p i then some i else a) acc = (l.reverse.find? p).or acc := by
  induction l generalizing acc with
  | nil => simp
  | cons x xs ih =>
    rw [List.foldl_cons, ih, List.reverse_cons, List.find?_append, Option.or_assoc]
    congr 1
    cases h : p x <;> simp [List.find?, h]

/-- Membership in a step-one `range'` as a pair of bounds. -/
theorem mem_range'_iff {s n m : Nat} : m ∈ List.range' s n ↔ s ≤ m ∧ m < s + n := by
  rw [List.mem_range']
  constructor
  · rintro ⟨i, hi, rfl⟩; omega
  · intro h; exact ⟨m - s, by omega, by omega⟩

/-- Last-match characterisation of `find?` over the reversal of an
ascending index range. -/
theorem reverse_find?_range'_eq_some (p : Nat → Bool) (s n j : Nat) :
    (List.range' s n).reverse.find? p = some j ↔
      (s ≤ j ∧ j < s + n ∧ p j = true ∧ ∀ k, j < k → k < s + n → p k = false) := by
  induction n with
  | zero =>
    simp only [List.range'_zero, List.reverse_nil, List.find?_nil]
    constructor
    · intro h; cases h
    · intro h; omega
  | succ n ih =>
    rw [List.range'_1_concat, List.reverse_append, List.reverse_singleton,
      List.singleton_append, List.find?_cons]
    cases h : p (s + n) with
    | true =>
      constructor
      · intro hj
        cases hj
        exact ⟨by omega, by omega, h, by omega⟩
      · rintro ⟨h1, h2, h3, h4⟩
        rcases Nat.lt_or_ge j (s + n) with hlt | hge
        · exact absurd (h4 (s + n) hlt (by omega)) (by simp [h])
        · have : j = s + n := by omega
          rw [this]
    | false =>
      rw [ih]
      constructor
      · rintro ⟨h1, h2, h3, h4⟩
        refine ⟨h1, by omega, h3, fun k hk1 hk2 => ?_⟩
        rcases Nat.lt_or_ge k (s + n) with hlt | hge
        · exact h4 k hk1 hlt
        · have : k = s + n := by omega
          rw [this]; exact h
      · rintro ⟨h1, h2, h3, h4⟩
        have hj : j ≠ s + n := by
          intro hj; rw [hj] at h3; rw [h3] at h; cases h
        refine ⟨h1, by omega, h3, fun k hk1 hk2 => h4 k hk1 (by omega)⟩

/-- First-match characterisation of `find?` over an ascending index range. -/
theorem find?_range'_eq_some (p : Nat → Bool) (s n j : Nat) :
    (List.range' s n).find? p = some j ↔
      (s ≤ j ∧ j < s + n ∧ p j = true ∧ ∀ k, s ≤ k → k < j → p k = false) := by
  induction n generalizing s with
  | zero =>
    simp only [List.range'_zero, List.find?_nil]
    constructor
    · intro h; cases h
    · intro h; omega
  | succ n ih =>
    rw [List.range'_succ, List.find?_cons]
    cases h : p s with
    | true =>
      constructor
      · intro hj
        cases hj
        exact ⟨Nat.le_refl _, by omega, h, by omega⟩
      · rintro ⟨h1, h2, h3, h4⟩
        rcases Nat.lt_or_ge s j with hlt | hge
        · exact absurd (h4 s (Nat.le_refl _) hlt) (by simp [h])
        · have : j = s := by omega
          rw [this]
    | false =>
      rw [ih]
      constructor
      · rintro ⟨h1, h2, h3, h4⟩
        refine ⟨by omega, by omega, h3, fun k hk1 hk2 => ?_⟩
        rcases Nat.lt_or_ge k (s + 1) with hlt | hge
        · have : k = s := by omega
          rw [this]; exact h
        · exact h4 k hge hk2
      · rintro ⟨h1, h2, h3, h4⟩
        have hj : j ≠ s := by
          intro hj; rw [hj] at h3; rw [h3] at h; cases h
        exact ⟨by omega, by omega, h3, fun k hk1 hk2 => h4 k (by omega) hk2⟩

/-- `find?` over an ascending index range finds nothing iff no index in
the range satisfies the predicate. -/
theorem find?_range'_eq_none (p : Nat → Bool) (s n : Nat) :
    (List.range' s n).find? p = none ↔ ∀ k, s ≤ k → k < s + n → p k = false := by
  rw [List.find?_eq_none]
  constructor
  · intro h k hk1 hk2
    have := h k (mem_range'_iff.mpr ⟨hk1, hk2⟩)
    simpa using this
  · intro h x hx
    have := h x (mem_range'_iff.mp hx).1 (mem_range'_iff.mp hx).2
    simp [this]

/-! ### Characterisations of the three stage searches -/

/-- Stage 1 selects exactly the last qualifying index of
`range(search_start, n)`. -/
theorem findGC_eq_some_iff (bars : List Bar) (j : Nat) :
    findGC bars = some j ↔
      (search_start bars.length ≤ j ∧ j < bars.length ∧ gcCond bars j = true ∧
        ∀ k, j < k → k < bars.length → gcCond bars k = false) := by
  unfold findGC
  rw [foldl_overwrite_eq, Option.or_none]
  rcases Nat.lt_or_ge bars.length (search_start bars.length) with hlt | hge
  · have h0 : bars.length - search_start bars.length = 0 := by omega
    rw [h0]
    simp only [List.range'_zero, List.reverse_nil, List.find?_nil]
    constructor
    · intro h; cases h
    · intro h; omega
  · rw [reverse_find?_range'_eq_some]
    have he : search_start bars.length + (bars.length - search_start bars.length)
        = bars.length := by omega
    rw [he]

/-- Stage 1 finds nothing iff no index of `range(search_start, n)`
qualifies. -/
theorem findGC_eq_none_iff (bars : List Bar) :
    findGC bars = none ↔
      ∀ k, search_start bars.length ≤ k → k < bars.length → gcCond bars k = false := by
  rcases h : findGC bars with _ | j
  · constructor
    · intro _ k hk1 hk2
      by_contra hc
      have hc' : gcCond bars k = true := by
        cases hkc : gcCond bars k
        · exact absurd hkc hc
        · rfl
      rcases Nat.lt_or_ge bars.length (search_start bars.length) with hlt | hge
      · omega
      · have : ∃ j, findGC bars = some j := by
          have hne : (List.range' (search_start bars.length)
              (bars.length - search_start bars.length)).reverse.find? (gcCond bars) ≠ none := by
            rw [Ne, List.find?_eq_none]
            intro hnone
            have hmem : k ∈ (List.range' (search_start bars.length)
                (bars.length - search_start bars.length)).reverse := by
              rw [List.mem_reverse, mem_range'_iff]
              omega
            exact absurd hc' (by simpa using hnone k hmem)
          rcases ho : (List.range' (search_start bars.length)
              (bars.length - search_start bars.length)).reverse.find? (gcCond bars) with _ | j
          · exact absurd ho hne
          · refine ⟨j, ?_⟩
            unfold findGC
            rw [foldl_overwrite_eq, Option.or_none, ho]
        rcases this with ⟨j, hj⟩
        rw [h] at hj
        cases hj
    · intro _; rfl
  · constructor
    · intro hc; cases hc
    · intro hall
      have := (findGC_eq_some_iff bars j).mp h
      have hfalse := hall j this.1 this.2.1
      rw [this.2.2.1] at hfalse
      cases hfalse

/-- Stage 2 selects exactly the first qualifying index of
`range(gc_idx + PULLBACK_MIN, min(gc_idx + PULLBACK_MAX + 1, n))`. -/
theorem findPullback_eq_some_iff (bars : List Bar) (c j : Nat) :
    findPullback bars c = some j ↔
      (c + PULLBACK_MIN ≤ j ∧ j < min (c + PULLBACK_MAX + 1) bars.length ∧
        pullbackCond bars j = true ∧
        ∀ k, c + PULLBACK_MIN ≤ k → k < j → pullbackCond bars k = false) := by
  unfold findPullback
  rw [find?_range'_eq_some]
  rcases Nat.lt_or_ge (min (c + PULLBACK_MAX + 1) bars.length) (c + PULLBACK_MIN) with hlt | hge
  · constructor
    · intro h; omega
    · intro h; omega
  · have he : c + PULLBACK_MIN + (min (c + PULLBACK_MAX + 1) bars.length - (c + PULLBACK_MIN))
        = min (c + PULLBACK_MAX + 1) bars.length := by omega
    rw [he]

/-- Stage 2 finds nothing iff no index of its window qualifies. -/
theorem findPullback_eq_none_iff (bars : List Bar) (c : Nat) :
    findPullback bars c = none ↔
      ∀ k, c + PULLBACK_MIN ≤ k → k < min (c + PULLBACK_MAX + 1) bars.length →
        pullbackCond bars k = false := by
  unfold findPullback
  rw [find?_range'_eq_none]
  constructor
  · intro h k hk1 hk2
    exact h k hk1 (by omega)
  · intro h k hk1 hk2
    exact h k hk1 (by omega)

/-- Stage 3 selects exactly the first qualifying index of
`range(pullback_idx + 1, min(pullback_idx + SIGNAL_LOOKBACK + 1, n))`. -/
theorem findSignal_eq_some_iff (bars : List Bar) (p j : Nat) :
    findSignal bars p = some j ↔
      (p + 1 ≤ j ∧ j < min (p + SIGNAL_LOOKBACK + 1) bars.length ∧
        signalCond bars j = true ∧
        ∀ k, p + 1 ≤ k → k < j → signalCond bars k = false) := by
  unfold findSignal
  rw [find?_range'_eq_some]
  rcases Nat.lt_or_ge (min (p + SIGNAL_LOOKBACK + 1) bars.length) (p + 1) with hlt | hge
  · constructor
    · intro h; omega
    · intro h; omega
  · have he : p + 1 + (min (p + SIGNAL_LOOKBACK + 1) bars.length - (p + 1))
        = min (p + SIGNAL_LOOKBACK + 1) bars.length := by omega
    rw [he]

/-! ### Rolling statistics are causal -/

/-- A rolling mean at index `i` reads only `xs[0..i]`: appending data does
not change it. -/
theorem rollingMA_append (w : Nat) (xs ys : List ℚ) (i : Nat) (h : i < xs.length) :
    rollingMA w (xs ++ ys) i = rollingMA w xs i := by
  unfold rollingMA
  have hlen : i < (xs ++ ys).length := by
    rw [List.length_append]; omega
  by_cases hw : w ≤ i + 1
  · rw [if_pos ⟨hw, hlen⟩, if_pos ⟨hw, h⟩]
    have hmap : ((List.range w).map fun k => (xs ++ ys).getD (i + 1 - w + k) 0)
        = (List.range w).map fun k => xs.getD (i + 1 - w + k) 0 := by
      apply List.map_congr_left
      intro k hk
      have hk' : k < w := List.mem_range.mp hk
      have hidx : i + 1 - w + k < xs.length := by omega
      rw [List.getD_eq_getElem?_getD, List.getD_eq_getElem?_getD,
        List.getElem?_append_left hidx]
    rw [hmap]
  · rw [if_neg, if_neg]
    · intro hc; exact hw hc.1
    · intro hc; exact hw hc.1

/-! ### Structural lemmas about `scan_strategy` -/

/-- A missing frame yields no result. -/
theorem scan_strategy_none_frame : scan_strategy none = none := rfl

/-- Fewer than 201 bars yields no result. -/
theorem scan_strategy_none_short (bars : List Bar) (h : bars.length < 201) :
    scan_strategy (some bars) = none := by
  simp [scan_strategy, h]

/-- No crossover found yields no result. -/
theorem scan_strategy_none_noGC (bars : List Bar) (h : findGC bars = none) :
    scan_strategy (some bars) = none := by
  by_cases h2 : bars.length < 201 <;> simp [scan_strategy, h, h2]

/-- A crossover without a pullback yields no result. -/
theorem scan_strategy_none_noPullback (bars : List Bar) (c : Nat)
    (hgc : findGC bars = some c) (h : findPullback bars c = none) :
    scan_strategy (some bars) = none := by
  by_cases h2 : bars.length < 201 <;> simp [scan_strategy, hgc, h, h2]

/-- A pullback without a signal yields no result. -/
theorem scan_strategy_none_noSignal (bars : List Bar) (c p : Nat)
    (hgc : findGC bars = some c) (hpb : findPullback bars c = some p)
    (h : findSignal bars p = none) :
    scan_strategy (some bars) = none := by
  by_cases h2 : bars.length < 201 <;> simp [scan_strategy, hgc, hpb, h, h2]

/-- When all three stages resolve, the assembled result is returned. -/
theorem scan_strategy_eq_of_stages (bars : List Bar) (c p s : Nat)
    (h2 : ¬ bars.length < 201) (hgc : findGC bars = some c)
    (hpb : findPullback bars c = some p) (hsig : findSignal bars p = some s) :
    scan_strategy (some bars) = some
      { lastClose := pyInt (closeAt bars (bars.length - 1))
        price_gc := price_gc_info bars c
        pullback := some (pullback_info bars c p s)
        vol_gc := vol_info bars } := by
  simp only [scan_strategy, h2, if_false, hgc, hpb, hsig]
  cases hp : price_gc_info bars c <;> cases hv : vol_info bars <;> rfl

/-! ### Date fields never influence the scan decision -/

theorem closes_remapDates (f : Nat → Nat) (bars : List Bar) :
    closes (remapDates f bars) = closes bars := by
  simp only [closes, remapDates, List.map_map]
  rfl

theorem volumes_remapDates (f : Nat → Nat) (bars : List Bar) :
    volumes (remapDates f bars) = volumes bars := by
  simp only [volumes, remapDates, List.map_map]
  rfl

theorem length_remapDates (f : Nat → Nat) (bars : List Bar) :
    (remapDates f bars).length = bars.length := by
  simp [remapDates]

theorem getElem?_remapDates (f : Nat → Nat) (bars : List Bar) (i : Nat) :
    (remapDates f bars)[i]? = (bars[i]?).map fun b => { b with date := f b.date } := by
  simp [remapDates]

theorem gcCond_remapDates (f : Nat → Nat) (bars : List Bar) (i : Nat) :
    gcCond (remapDates f bars) i = gcCond bars i := by
  unfold gcCond price_ma20 price_ma200 vol_ma20 vol_ma200
  rw [closes_remapDates, volumes_remapDates]

theorem pullbackCond_remapDates (f : Nat → Nat) (bars : List Bar) (i : Nat) :
    pullbackCond (remapDates f bars) i = pullbackCond bars i := by
  unfold pullbackCond price_ma20
  rw [closes_remapDates, getElem?_remapDates]
  cases bars[i]? <;> cases rollingMA 20 (closes bars) i <;> rfl

theorem signalCond_remapDates (f : Nat → Nat) (bars : List Bar) (i : Nat) :
    signalCond (remapDates f bars) i = signalCond bars i := by
  unfold signalCond
  rw [getElem?_remapDates, getElem?_remapDates]
  cases bars[i]? <;> cases bars[i - 1]? <;> rfl

theorem findGC_remapDates (f : Nat → Nat) (bars : List Bar) :
    findGC (remapDates f bars) = findGC bars := by
  unfold findGC
  rw [length_remapDates]
  simp only [gcCond_remapDates]

theorem findPullback_remapDates (f : Nat → Nat) (bars : List Bar) (c : Nat) :
    findPullback (remapDates f bars) c = findPullback bars c := by
  unfold findPullback
  rw [length_remapDates, funext (pullbackCond_remapDates f bars)]

theorem findSignal_remapDates (f : Nat → Nat) (bars : List Bar) (p : Nat) :
    findSignal (remapDates f bars) p = findSignal bars p := by
  unfold findSignal
  rw [length_remapDates, funext (signalCond_remapDates f bars)]

/-! ### Claim theorems -/

/-- C8: a missing series, or any series shorter than `W2+1 = 201` bars,
immediately yields the defined absence value (`none`) and raises nothing. -/
theorem c8_insufficient_history (df : Option (List Bar))
    (h : ∀ bars, df = some bars → bars.length < 201) :
    scan_strategy df = none := by
  cases df with
  | none => rfl
  | some bars => exact scan_strategy_none_short bars (h bars rfl)

/-- C8 witness: a 200-bar series yields `none`. -/
theorem c8_witness : scan_strategy (some (List.replicate 200 plainBar)) = none :=
  c8_insufficient_history (some (List.replicate 200 plainBar))
    (fun bars hb => by cases hb; simp)

/-- C9: every rolling statistic of the indicator set at index `i` depends
only on bars `[0..i]` — appending future bars never changes it. -/
theorem c9_no_lookahead (bars ext : List Bar) (i : Nat) (h : i < bars.length) :
    price_ma20 (bars ++ ext) i = price_ma20 bars i ∧
    price_ma200 (bars ++ ext) i = price_ma200 bars i ∧
    vol_ma5 (bars ++ ext) i = vol_ma5 bars i ∧
    vol_ma20 (bars ++ ext) i = vol_ma20 bars i ∧
    vol_ma200 (bars ++ ext) i = vol_ma200 bars i := by
  have hc : closes (bars ++ ext) = closes bars ++ closes ext := by simp [closes]
  have hv : volumes (bars ++ ext) = volumes bars ++ volumes ext := by simp [volumes]
  have hcl : i < (closes bars).length := by simpa [closes] using h
  have hvl : i < (volumes bars).length := by simpa [volumes] using h
  refine ⟨?_, ?_, ?_, ?_, ?_⟩
  · unfold price_ma20; rw [hc]; exact rollingMA_append 20 _ _ i hcl
  · unfold price_ma200; rw [hc]; exact rollingMA_append 200 _ _ i hcl
  · unfold vol_ma5; rw [hv]; exact rollingMA_append 5 _ _ i hvl
  · unfold vol_ma20; rw [hv]; exact rollingMA_append 20 _ _ i hvl
  · unfold vol_ma200; rw [hv]; exact rollingMA_append 200 _ _ i hvl

/-- C9 witness: appending one bar to the 201-bar series `exVol` leaves all
five statistics at index 200 unchanged. -/
theorem c9_witness :
    price_ma20 (exVol ++ [plainBar]) 200 = price_ma20 exVol 200 ∧
    price_ma200 (exVol ++ [plainBar]) 200 = price_ma200 exVol 200 ∧
    vol_ma5 (exVol ++ [plainBar]) 200 = vol_ma5 exVol 200 ∧
    vol_ma20 (exVol ++ [plainBar]) 200 = vol_ma20 exVol 200 ∧
    vol_ma200 (exVol ++ [plainBar]) 200 = vol_ma200 exVol 200 :=
  c9_no_lookahead exVol [plainBar] 200 (by decide!)

/-- C10: whenever the scan returns a populated result, its pullback
sub-result is populated: the early returns make crossover, pullback and
signal resolution a precondition of every returned record. -/
theorem c10_populated_implies_pullback (df : Option (List Bar)) (r : ScanResult)
    (h : scan_strategy df = some r) : r.pullback.isSome = true := by
  cases df with
  | none => simp [scan_strategy] at h
  | some bars =>
    by_cases h2 : bars.length < 201
    · rw [scan_strategy_none_short bars h2] at h; cases h
    · cases hgc : findGC bars with
      | none => rw [scan_strategy_none_noGC bars hgc] at h; cases h
      | some c =>
        cases hpb : findPullback bars c with
        | none => rw [scan_strategy_none_noPullback bars c hgc hpb] at h; cases h
        | some p =>
          cases hsig : findSignal bars p with
          | none => rw [scan_strategy_none_noSignal bars c p hgc hpb hsig] at h; cases h
          | some s =>
            rw [scan_strategy_eq_of_stages bars c p s h2 hgc hpb hsig] at h
            cases h
            rfl

/-- C10 witness: the populated result of `exFull` carries a pullback
sub-result. -/
theorem c10_witness : exFullResult.pullback.isSome = true :=
  c10_populated_implies_pullback (some exFull) exFullResult (by decide!)

/-- C4 counterexample: `exFull` is malformed (duplicate dates) yet the
analysis does not fail — it silently returns a fully populated result, so
the code performs no date-integrity validation at all. -/
theorem c4_counterexample :
    malformedSeries exFull = true ∧ scan_strategy (some exFull) = some exFullResult := by
  decide!

/-- C4 (amended): the analysis never signals a `DataIntegrityError`; it
ignores the date fields entirely when deciding whether a result exists, so
malformed series (unsorted or duplicate dates) are analysed like any
other. -/
theorem c4_scan_date_blind (bars : List Bar) (f : Nat → Nat) :
    (scan_strategy (some (remapDates f bars))).isSome
      = (scan_strategy (some bars)).isSome := by
  by_cases h2 : bars.length < 201
  · rw [scan_strategy_none_short _ (by rw [length_remapDates]; exact h2),
      scan_strategy_none_short _ h2]
  · cases hgc : findGC bars with
    | none =>
      rw [scan_strategy_none_noGC _ (by rw [findGC_remapDates]; exact hgc),
        scan_strategy_none_noGC _ hgc]
    | some c =>
      cases hpb : findPullback bars c with
      | none =>
        rw [scan_strategy_none_noPullback _ c (by rw [findGC_remapDates]; exact hgc)
            (by rw [findPullback_remapDates]; exact hpb),
          scan_strategy_none_noPullback _ c hgc hpb]
      | some p =>
        cases hsig : findSignal bars p with
        | none =>
          rw [scan_strategy_none_noSignal _ c p (by rw [findGC_remapDates]; exact hgc)
              (by rw [findPullback_remapDates]; exact hpb)
              (by rw [findSignal_remapDates]; exact hsig),
            scan_strategy_none_noSignal _ c p hgc hpb hsig]
        | some s =>
          rw [scan_strategy_eq_of_stages _ c p s
              (by rw [length_remapDates]; exact h2)
              (by rw [findGC_remapDates]; exact hgc)
              (by rw [findPullback_remapDates]; exact hpb)
              (by rw [findSignal_remapDates]; exact hsig),
            scan_strategy_eq_of_stages bars c p s h2 hgc hpb hsig]
          rfl

/-- C1: the volume-ratio check is NOT independent of the other stages.
`exVol` is a 201-bar series whose final-bar volume MAs are defined with
`volMA5 = 180 = 1.5 × volMA20`, `volMA20 = 120 > 0`, so the claim demands
a reported ratio of `1.5`; but the code returns before its volume-ratio
stage whenever no crossover/pullback/signal was found, and here the scan
yields `none`: no ratio is reported at all. -/
theorem c1_ratio_not_independent :
    vol_ma5 exVol (exVol.length - 1) = some 180 ∧
    vol_ma20 exVol (exVol.length - 1) = some 120 ∧
    (0 : ℚ) < 120 ∧ (120 : ℚ) < 180 ∧
    pyRound2 (180 / 120 : ℚ) = 3 / 2 ∧
    findGC exVol = none ∧
    scan_strategy (some exVol) = none := by
  decide!

/-- C2: when several indices inside the scanned window satisfy the full
crossover test, the locator selects the last (most recent) one — it keeps
overwriting the candidate instead of stopping at the first match. -/
theorem c2_crossover_recency (bars : List Bar) (i1 i2 : Nat)
    (h1a : search_start bars.length ≤ i1) (h1b : i1 < bars.length)
    (hc1 : gcCond bars i1 = true)
    (h2a : search_start bars.length ≤ i2) (h2b : i2 < bars.length)
    (hc2 : gcCond bars i2 = true)
    (hlt : i1 < i2)
    (hlast : ∀ k, k < bars.length → search_start bars.length ≤ k →
      gcCond bars k = true → k ≤ i2) :
    findGC bars = some i2 := by
  rw [findGC_eq_some_iff]
  refine ⟨h2a, h2b, hc2, fun k hk1 hk2 => ?_⟩
  cases hck : gcCond bars k with
  | false => rfl
  | true =>
    have := hlast k hk2 (by omega) hck
    omega

/-- C2 witness: `exTwo` has qualifying crossovers at 201 and 203; the
locator returns 203. -/
theorem c2_witness : findGC exTwo = some 203 :=
  c2_crossover_recency exTwo 201 203 (by decide!) (by decide!) (by decide!)
    (by decide!) (by decide!) (by decide!) (by decide!) (by decide!)

/-- C3 counterexample: in `exAt200` (201 bars, `n - L - 1 = 170 ≤ 200`)
index 200 satisfies the full crossover test, yet the locator — which
starts at `max(201, n-31)`, not `max(200, n-31)` — scans an empty range
and finds nothing, and the whole scan returns `none`. -/
theorem c3_counterexample :
    exAt200.length - GC_LOOKBACK - 1 ≤ 200 ∧
    gcCond exAt200 200 = true ∧
    (∀ k, k < exAt200.length → gcCond exAt200 k = true → k = 200) ∧
    findGC exAt200 = none ∧
    scan_strategy (some exAt200) = none := by
  decide!

/-- C3 (amended): the crossover locator scans exactly the index range
`max(W2+1, n-L-1) = max(201, n-31)` to `n-1`: every index it selects lies
in that range and qualifies, and any qualifying index in that range
forces a find.  Index `W2 = 200` is never scanned. -/
theorem c3_scan_range (bars : List Bar) :
    (∀ j, findGC bars = some j →
      max 201 (bars.length - GC_LOOKBACK - 1) ≤ j ∧ j < bars.length ∧
        gcCond bars j = true) ∧
    (∀ i, max 201 (bars.length - GC_LOOKBACK - 1) ≤ i → i < bars.length →
      gcCond bars i = true → findGC bars ≠ none) := by
  constructor
  · intro j hj
    have h := (findGC_eq_some_iff bars j).mp hj
    exact ⟨h.1, h.2.1, h.2.2.1⟩
  · intro i hi1 hi2 hc hnone
    have h := (findGC_eq_none_iff bars).mp hnone i hi1 hi2
    rw [hc] at h
    cases h

/-- C3 amended-claim witness: instantiated on `exTwo`, whose locator
returns 203. -/
theorem c3_witness :
    max 201 (exTwo.length - GC_LOOKBACK - 1) ≤ 203 ∧ 203 < exTwo.length ∧
    gcCond exTwo 203 = true :=
  (c3_scan_range exTwo).1 203 (by decide!)

/-- C5: the pullback search is first-match-wins over the clamped window
`[c + PULLBACK_MIN, min(c + PULLBACK_MAX, n-1)]`: it returns an index iff
it is the earliest index of the window at which MA20 is defined and the
low or close lies in the ±2% band; and when none exists the whole pattern
is absent for this instrument. -/
theorem c5_pullback_first_match (bars : List Bar) (c j : Nat) :
    (findPullback bars c = some j ↔
      (c + PULLBACK_MIN ≤ j ∧ j < min (c + PULLBACK_MAX + 1) bars.length ∧
        pullbackCond bars j = true ∧
        ∀ k, k < j → c + PULLBACK_MIN ≤ k → pullbackCond bars k = false)) ∧
    (findPullback bars c = none → findGC bars = some c → ¬ bars.length < 201 →
      scan_strategy (some bars) = none) := by
  constructor
  · rw [findPullback_eq_some_iff]
    constructor
    · rintro ⟨a, b, c', d⟩
      exact ⟨a, b, c', fun k hk1 hk2 => d k hk2 hk1⟩
    · rintro ⟨a, b, c', d⟩
      exact ⟨a, b, c', fun k hk1 hk2 => d k hk2 hk1⟩
  · intro hnone hgc _
    exact scan_strategy_none_noPullback bars c hgc hnone

/-- C5 witness: in `exFull`, with the crossover at 201, the pullback
search returns 204 (window start, bar's close touches the band). -/
theorem c5_witness : findPullback exFull 201 = some 204 :=
  (c5_pullback_first_match exFull 201 204).1.mpr (by decide!)

/-- C6: the signal search is first-match-wins over
`[p+1, min(p + SIGNAL_LOOKBACK, n-1)]` with the bullish/breakout test, and
the resulting signal's kind is "today" exactly when the chosen index is
the series' last bar, else "historic" tagged with the bar's date. -/
theorem c6_signal_first_match_and_kind (bars : List Bar) (p j : Nat) :
    (findSignal bars p = some j ↔
      (p + 1 ≤ j ∧ j < min (p + SIGNAL_LOOKBACK + 1) bars.length ∧
        signalCond bars j = true ∧
        ∀ k, k < j → p + 1 ≤ k → signalCond bars k = false)) ∧
    (∀ c, ¬ bars.length < 201 → findGC bars = some c → findPullback bars c = some p →
      findSignal bars p = some j →
      ∃ r, scan_strategy (some bars) = some r ∧
        r.pullback = some (pullback_info bars c p j) ∧
        (pullback_info bars c p j).signalType
          = (if j = bars.length - 1 then SignalType.today
            else SignalType.historic (dateAt bars j)) ∧
        ((pullback_info bars c p j).signalType = SignalType.today ↔
          j = bars.length - 1)) := by
  constructor
  · rw [findSignal_eq_some_iff]
    constructor
    · rintro ⟨a, b, c', d⟩
      exact ⟨a, b, c', fun k hk1 hk2 => d k hk2 hk1⟩
    · rintro ⟨a, b, c', d⟩
      exact ⟨a, b, c', fun k hk1 hk2 => d k hk2 hk1⟩
  · intro c h2 hgc hpb hsig
    refine ⟨_, scan_strategy_eq_of_stages bars c p j h2 hgc hpb hsig, rfl, rfl, ?_⟩
    by_cases hj : j = bars.length - 1
    · simp [pullback_info, hj]
    · simp [pullback_info, hj]

/-- C6 witness: in `exFull` the signal search after the pullback at 204
returns 205, the last bar, and the assembled record is tagged "today". -/
theorem c6_witness :
    ∃ r, scan_strategy (some exFull) = some r ∧
      r.pullback = some (pullback_info exFull 201 204 205) ∧
      (pullback_info exFull 201 204 205).signalType
        = (if 205 = exFull.length - 1 then SignalType.today
          else SignalType.historic (dateAt exFull 205)) ∧
      ((pullback_info exFull 201 204 205).signalType = SignalType.today ↔
        205 = exFull.length - 1) :=
  (c6_signal_first_match_and_kind exFull 204 205).2 201 (by decide!) (by decide!)
    (by decide!) (by decide!)

/-- C7: an empty (fully clamped-away) pullback window yields `none`
rather than an error, and neither search can return or visit an index
past the last bar — both iteration ranges stay below `n`. -/
theorem c7_window_clamping (bars : List Bar) (c : Nat) :
    (bars.length - 1 < c + PULLBACK_MIN → findPullback bars c = none) ∧
    (∀ i, findPullback bars c = some i → i < bars.length) ∧
    (∀ i, findSignal bars c = some i → i < bars.length) ∧
    (∀ i, i ∈ List.range' (c + PULLBACK_MIN)
        (min (c + PULLBACK_MAX + 1) bars.length - (c + PULLBACK_MIN)) →
      i < bars.length) ∧
    (∀ i, i ∈ List.range' (c + 1)
        (min (c + SIGNAL_LOOKBACK + 1) bars.length - (c + 1)) →
      i < bars.length) := by
  have hP : PULLBACK_MIN = 3 := rfl
  refine ⟨?_, ?_, ?_, ?_, ?_⟩
  · intro h
    rw [findPullback_eq_none_iff]
    intro k hk1 hk2
    exfalso
    rw [hP] at h hk1
    omega
  · intro i hi
    have h := (findPullback_eq_some_iff bars c i).mp hi
    omega
  · intro i hi
    have h := (findSignal_eq_some_iff bars c i).mp hi
    omega
  · intro i hi
    have h := mem_range'_iff.mp hi
    omega
  · intro i hi
    have h := mem_range'_iff.mp hi
    omega

/-- C7 witness: a crossover at index 204 of the 206-bar `exFull` (window
start `204 + 3 = 207` past the last bar 205) yields an absent pullback. -/
theorem c7_witness : findPullback exFull 204 = none :=
  (c7_window_clamping exFull 204).1 (by decide!)
